import Mathlib

set_option maxHeartbeats 1000000

/-
Shallow embedding of the soplang/registry validation scripts:
  scripts/verify_append.py     - append-diff verifier for PR registry changes
  scripts/validate_sop_toml.py - admission validator for the proposed package
  scripts/update_registry.py   - merge/enrichment of the new record
  scripts/daily_check.py       - periodic validity sweep over all records

JSON/TOML scalar values are embedded as `JValue` (numbers as `Int`; the
claims under study never depend on non-integer numerics).  Python dicts
are embedded as association lists with first-occurrence lookup; a
Python dict has unique keys, which this model subsumes.  Transport
(HTTP fetches, URL derivation) and the version-control persistence
layer are external collaborators per the design and are modelled as
oracle functions passed in as parameters; a failed fetch is modelled
exactly as the scripts see it (an empty descriptor in daily_check.py,
an error exit in the admission/update scripts).
-/

/-- A JSON/TOML field value: null, boolean, number, string, or array of
strings.  Registry package records are flat mappings of such values
(spec sections 3 and 6: scalar fields plus the string-array fields
`keywords` and `categories`); the scripts only ever compare field
values for equality and test their truthiness, never look inside. -/
inductive JValue where
  | null : JValue
  | bool (b : Bool) : JValue
  | num (n : Int) : JValue
  | str (s : String) : JValue
  | strList (elems : List String) : JValue
deriving DecidableEq

/-- A Python dict with string keys (a package record, or the `[package]`
section of a descriptor), embedded as an association list; lookups take
the first occurrence, matching unique-key dicts. -/
abbrev Record := List (String × JValue)

/-- First-occurrence lookup, embedding `k in d` / `d[k]`. -/
def lookupField : Record → String → Option JValue
  | [], _ => none
  | (k, v) :: rest, key => if k = key then some v else lookupField rest key

/-- Lookup with a default, embedding Python's `d.get(k, default)`. -/
def lookupFieldD (r : Record) (key : String) (dflt : JValue) : JValue :=
  (lookupField r key).getD dflt

/-- Dict assignment `d[k] = v`: replace the (first) existing binding in
place, else append the new binding at the end, as CPython dicts do. -/
def setField : Record → String → JValue → Record
  | [], key, v => [(key, v)]
  | (k, w) :: rest, key, v =>
    if k = key then (key, v) :: rest else (k, w) :: setField rest key v

/-- Python truthiness of a value (`if not x`). -/
def jTruthy : JValue → Bool
  | JValue.null => false
  | JValue.bool b => b
  | JValue.num n => decide (n ≠ 0)
  | JValue.str s => decide (s ≠ "")
  | JValue.strList xs => decide (xs ≠ [])

/-- Python `==` on two dicts: same key set and equal values at every key
(evaluated through first-occurrence lookups). -/
def recordEqv (a b : Record) : Bool :=
  a.all (fun kv => decide (lookupField b kv.1 = some kv.2)) &&
  b.all (fun kv => decide (lookupField a kv.1 = some kv.2))

/-- A registry document: the optional `packages` array plus the other
top-level fields (spec section 6: a top-level mapping whose `packages`
field holds the ordered sequence of package records). -/
structure RegistryDoc where
  packages : Option (List Record)
  extra : List (String × JValue)
deriving DecidableEq

/-- A parsed descriptor (`sop.toml`): its optional `[package]` section,
plus whether any other top-level key exists (which is all the scripts
ever observe about the rest: the truthiness test `if not sop_data`).
A failed fetch in daily_check.py yields the empty value `⟨none, false⟩`. -/
structure SopData where
  package : Option Record
  hasOtherKeys : Bool
deriving DecidableEq

/-- Truthiness of the descriptor dict: `not sop_data` holds exactly when
it has no keys at all. -/
def SopData.isEmpty (d : SopData) : Bool := d.package.isNone && !d.hasOtherKeys

-- Basic record lemmas

theorem lookupField_setField_self (r : Record) (k : String) (v : JValue) :
    lookupField (setField r k v) k = some v := by
  induction r with
  | nil => simp [setField, lookupField]
  | cons kv rest ih =>
    obtain ⟨k', w⟩ := kv
    by_cases h : k' = k
    · simp [setField, h, lookupField]
    · simp [setField, h, lookupField, ih]

theorem lookupField_setField_ne (r : Record) (k k' : String) (v : JValue)
    (h : k' ≠ k) : lookupField (setField r k' v) k = lookupField r k := by
  induction r with
  | nil => simp [setField, lookupField, h]
  | cons kv rest ih =>
    obtain ⟨k0, w⟩ := kv
    by_cases h0 : k0 = k'
    · simp [setField, h0, lookupField, h]
    · simp [setField, h0, lookupField, ih]

theorem setField_of_lookup_eq (r : Record) (k : String) (v : JValue)
    (h : lookupField r k = some v) : setField r k v = r := by
  induction r with
  | nil => simp [lookupField] at h
  | cons kv rest ih =>
    obtain ⟨k0, w⟩ := kv
    by_cases h0 : k0 = k
    · subst h0
      simp [lookupField] at h
      simp [setField, h]
    · simp [lookupField, h0] at h
      simp [setField, h0, ih h]

-- =====================  daily_check.py  =====================

/-- Fields compared between registry.json and the remote sop.toml
(daily_check.py, FIELDS_TO_COMPARE). -/
def FIELDS_TO_COMPARE : List String :=
  ["name", "version", "status", "license", "author", "repository",
   "homepage", "entry", "keywords", "categories"]

/-- A single field comparison of compare_metadata's loop body: the
field causes a mismatch when it is present in the descriptor's
package section, present in the registry record, and the two values
differ. -/
def fieldDiffers (registry_package package_info : Record) (field : String) : Bool :=
  match lookupField package_info field, lookupField registry_package field with
  | some v, some rv => decide (rv ≠ v)
  | _, _ => false

/-- The field loop of compare_metadata (daily_check.py lines 71-83):
skip fields absent from the descriptor section, skip fields absent
from the registry record, return the offending field (printed by the
script just before it returns False) at the first value difference. -/
def compareLoop (registry_package package_info : Record) : List String → Option String
  | [] => none
  | field :: rest =>
    match lookupField package_info field with
    | none => compareLoop registry_package package_info rest
    | some v =>
      match lookupField registry_package field with
      | none => compareLoop registry_package package_info rest
      | some rv =>
        if rv = v then compareLoop registry_package package_info rest
        else some field

/-- compare_metadata (daily_check.py lines 65-84): False when the
descriptor dict is empty or has no "package" key, otherwise the result
of the field loop over FIELDS_TO_COMPARE. -/
def compare_metadata (registry_package : Record) (sop_data : SopData) : Bool :=
  if sop_data.isEmpty || sop_data.package.isNone then false
  else
    (compareLoop registry_package (sop_data.package.getD []) FIELDS_TO_COMPARE).isNone

/-- check_entry_file (daily_check.py lines 50-62): False immediately on
a falsy entry path, otherwise the result of the HTTP probe of the
derived raw URL; the probe (URL derivation plus requests.get) is the
external Entry Existence Prober collaborator, passed in as the oracle
`probe` taking the repository URL and the entry value. -/
def check_entry_file (probe : JValue → JValue → Bool)
    (repo_url entry_path : JValue) : Bool :=
  if jTruthy entry_path = false then false else probe repo_url entry_path

/-- The entry_exists computation of the sweep loop (daily_check.py
lines 128-133): probe only when the descriptor is truthy, has a
package section, and that section declares "entry". -/
def entryExists (probe : JValue → JValue → Bool) (repo_url : JValue)
    (sop_data : SopData) : Bool :=
  if sop_data.isEmpty = false then
    match sop_data.package with
    | some package_info =>
      match lookupField package_info "entry" with
      | some entry_path => check_entry_file probe repo_url entry_path
      | none => false
    | none => false
  else false

/-- The validity verdict of the sweep loop (daily_check.py lines
122-137): `is_valid = bool(sop_data and entry_exists and
metadata_matches)`, with `fetch` the external Descriptor Source
oracle (fetch_sop_toml returns the empty dict on any fetch or parse
failure, so a failure is the oracle answering `⟨none, false⟩`). -/
def computeVerdict (fetch : JValue → SopData) (probe : JValue → JValue → Bool)
    (package : Record) (repo_url : JValue) : Bool :=
  let sop_data := fetch repo_url
  (!sop_data.isEmpty) && entryExists probe repo_url sop_data &&
    compare_metadata package sop_data

/-- One iteration of the sweep loop of daily_check.py main (lines
119-155): returns the (possibly updated) record and whether this
package set changes_made.  An empty or absent repository URL sets
valid to False and marks a change unconditionally; otherwise the
verdict is computed and the record is marked changed when
`package.get("valid", True) != is_valid` or when "valid" is absent. -/
def sweepPackage (fetch : JValue → SopData) (probe : JValue → JValue → Bool)
    (package : Record) : Record × Bool :=
  let repo_url := lookupFieldD package "repository" (JValue.str "")
  if jTruthy repo_url = false then
    (setField package "valid" (JValue.bool false), true)
  else
    let is_valid := computeVerdict fetch probe package repo_url
    if lookupFieldD package "valid" (JValue.bool true) ≠ JValue.bool is_valid then
      (setField package "valid" (JValue.bool is_valid), true)
    else if (lookupField package "valid").isNone then
      (setField package "valid" (JValue.bool is_valid), true)
    else (package, false)

/-- The whole sweep loop: the final packages list (each record mutated
in place by its own iteration only) and the final changes_made flag
(true when any iteration set it). -/
def runSweep (fetch : JValue → SopData) (probe : JValue → JValue → Bool)
    (pkgs : List Record) : List Record × Bool :=
  (pkgs.map (fun p => (sweepPackage fetch probe p).1),
   pkgs.any (fun p => (sweepPackage fetch probe p).2))

/-- daily_check.py main: load the document, exit silently when the
packages list is missing or empty, run the sweep, and persist plus
commit the document (through the external persistence collaborator)
exactly when changes_made ended up true.  Returns the final document
and whether it was persisted and committed. -/
def daily_check_main (fetch : JValue → SopData) (probe : JValue → JValue → Bool)
    (doc : RegistryDoc) : RegistryDoc × Bool :=
  let packages := doc.packages.getD []
  if packages.isEmpty then (doc, false)
  else
    let res := runSweep fetch probe packages
    if res.2 then (RegistryDoc.mk (some res.1) doc.extra, true) else (doc, false)

-- =====================  update_registry.py  =====================

/-- Fields copied from the descriptor onto the new record
(update_registry.py, FIELDS_TO_COPY). -/
def FIELDS_TO_COPY : List String :=
  ["name", "version", "status", "description", "license", "author",
   "repository", "homepage", "entry", "keywords", "categories"]

/-- The copy loop of update_registry.py main (lines 54-58): for each
field of the list, in order, overwrite/insert it on the record when
the descriptor's package section declares it. -/
def enrichFields (package_info : Record) (fields : List String)
    (new_package : Record) : Record :=
  match fields with
  | [] => new_package
  | field :: rest =>
    match lookupField package_info field with
    | some v => enrichFields package_info rest (setField new_package field v)
    | none => enrichFields package_info rest new_package

/-- Merge/enrichment: the copy loop over FIELDS_TO_COPY. -/
def enrich (package_info new_package : Record) : Record :=
  enrichFields package_info FIELDS_TO_COPY new_package

/-- update_registry.py main, up to the persistence collaborator: error
exit (`none`) when the packages list is missing or empty, when the last
record has no "repository" key (an uncaught KeyError), or when the
fetch/parse of sop.toml fails (`fetch` returning `none`); otherwise the
document with the last record replaced by its enrichment. -/
def update_registry_main (fetch : JValue → Option SopData)
    (doc : RegistryDoc) : Option RegistryDoc :=
  let packages := doc.packages.getD []
  match packages.getLast? with
  | none => none
  | some new_package =>
    match lookupField new_package "repository" with
    | none => none
    | some repo_url =>
      match fetch repo_url with
      | none => none
      | some sop_data =>
        let package_info := sop_data.package.getD []
        some (RegistryDoc.mk
          (some (packages.dropLast ++ [enrich package_info new_package]))
          doc.extra)

-- =====================  verify_append.py  =====================

/-- Result of the append-diff verifier; each non-accept constructor is
one of the script's error exits, in source order. -/
inductive AppendResult where
  | accept : AppendResult
  | missingPackagesField : AppendResult
  | wrongCount : AppendResult
  | modifiedIndex (i : Nat) : AppendResult
  | extraFields : AppendResult
  | emptyRepository : AppendResult
  | typeError : AppendResult
deriving DecidableEq

/-- The existing-packages loop of verify_append.py (lines 36-39):
`for i in range(len(base_packages))`, first index whose records
compare unequal under Python dict equality. -/
def firstModified (base_packages pr_packages : List Record) : Option Nat :=
  (List.range base_packages.length).find?
    (fun i => !recordEqv (base_packages.getD i []) (pr_packages.getD i []))

/-- Python str.strip() with no argument: remove leading and trailing
whitespace (written with structural list recursion so that it
evaluates inside the kernel). -/
def pyStrip (s : String) : String :=
  String.mk
    (((s.data.dropWhile Char.isWhitespace).reverse.dropWhile
        Char.isWhitespace).reverse)

/-- The checks of verify_append.py run on the two packages arrays
(lines 28-60): count check, existing-record loop, extra-field check on
the appended record, then the strip-and-test of its "repository"
value. -/
def verifyPackages (base_packages pr_packages : List Record) : AppendResult :=
  if pr_packages.length ≠ base_packages.length + 1 then AppendResult.wrongCount
  else if (firstModified base_packages pr_packages).isSome then
    AppendResult.modifiedIndex ((firstModified base_packages pr_packages).getD 0)
  else if (pr_packages.getLast?.getD []).any (fun kv => decide (kv.1 ≠ "repository")) then
    AppendResult.extraFields
  else
    match lookupFieldD (pr_packages.getLast?.getD []) "repository" (JValue.str "") with
    | JValue.str s =>
      if pyStrip s = "" then AppendResult.emptyRepository else AppendResult.accept
    | _ => AppendResult.typeError

/-- verify_append.py main (lines 20-63).  `typeError` is the uncaught
AttributeError the script raises when the new record's "repository"
value is a truthy non-string (`.strip()` on a non-string); it still
exits non-zero but without naming a rule. -/
def verify_append (base_data pr_data : RegistryDoc) : AppendResult :=
  match base_data.packages, pr_data.packages with
  | some base_packages, some pr_packages =>
    verifyPackages base_packages pr_packages
  | _, _ => AppendResult.missingPackagesField

-- =====================  validate_sop_toml.py  =====================

/-- Required descriptor fields (validate_sop_toml.py, REQUIRED_FIELDS). -/
def REQUIRED_FIELDS : List String :=
  ["name", "version", "status", "license", "author", "repository", "entry"]

/-- The required-field loop of validate_sop_toml.py (lines 54-57):
first field of the list absent from the package section, if any. -/
def checkRequired (package_info : Record) : List String → Option String
  | [] => none
  | field :: rest =>
    if lookupField package_info field = none then some field
    else checkRequired package_info rest

/-- Result of the admission validator; `crashKeyError` is the uncaught
KeyError raised by `new_package["repository"]` when the last record has
no "repository" key (a crash, not a clean diagnostic rejection). -/
inductive AdmissionResult where
  | accept : AdmissionResult
  | noPackages : AdmissionResult
  | crashKeyError : AdmissionResult
  | fetchFailed : AdmissionResult
  | missingField (f : String) : AdmissionResult
  | entryMissing : AdmissionResult
deriving DecidableEq

/-- validate_sop_toml.py main (lines 17-69): load the document, reject
when the packages list is missing or empty, read the last record's
"repository" unconditionally (KeyError when absent), fetch and parse
sop.toml through the external transport (`fetch` answering `none` for
a non-200 response or a parse error, a hard reject here), check the
required fields in order, then probe the declared entry file through
the external transport oracle `probe`. -/
def validate_sop_toml (fetch : JValue → Option SopData)
    (probe : JValue → JValue → Bool) (doc : RegistryDoc) : AdmissionResult :=
  let packages := doc.packages.getD []
  match packages.getLast? with
  | none => AdmissionResult.noPackages
  | some new_package =>
    match lookupField new_package "repository" with
    | none => AdmissionResult.crashKeyError
    | some repo_url =>
      match fetch repo_url with
      | none => AdmissionResult.fetchFailed
      | some sop_data =>
        let package_info := sop_data.package.getD []
        match checkRequired package_info REQUIRED_FIELDS with
        | some field => AdmissionResult.missingField field
        | none =>
          match lookupField package_info "entry" with
          | some entry_path =>
            if probe repo_url entry_path then AdmissionResult.accept
            else AdmissionResult.entryMissing
          | none => AdmissionResult.entryMissing

-- =====================  enrichment lemmas  =====================

theorem enrichFields_preserve (package_info : Record) (fs : List String)
    (r : Record) (f : String) (v : JValue)
    (hpkg : lookupField package_info f = some v)
    (hr : lookupField r f = some v) :
    lookupField (enrichFields package_info fs r) f = some v := by
  induction fs generalizing r with
  | nil => simpa [enrichFields] using hr
  | cons g rest ih =>
    cases hg : lookupField package_info g with
    | none =>
      simp only [enrichFields, hg]
      exact ih r hr
    | some w =>
      simp only [enrichFields, hg]
      by_cases hgf : g = f
      · subst hgf
        rw [hpkg] at hg
        injection hg with hw
        subst hw
        exact ih _ (lookupField_setField_self r g v)
      · exact ih _ (by rw [lookupField_setField_ne r f g w hgf]; exact hr)

theorem enrichFields_lookup_mem (package_info : Record) (fs : List String)
    (r : Record) (f : String) (v : JValue) (hf : f ∈ fs)
    (hpkg : lookupField package_info f = some v) :
    lookupField (enrichFields package_info fs r) f = some v := by
  induction fs generalizing r with
  | nil => cases hf
  | cons g rest ih =>
    cases hg : lookupField package_info g with
    | none =>
      simp only [enrichFields, hg]
      rcases List.mem_cons.mp hf with h | h
      · subst h
        rw [hpkg] at hg
        cases hg
      · exact ih r h
    | some w =>
      simp only [enrichFields, hg]
      by_cases hgf : g = f
      · subst hgf
        rw [hpkg] at hg
        injection hg with hw
        subst hw
        exact enrichFields_preserve package_info rest _ g v hpkg
          (lookupField_setField_self r g v)
      · rcases List.mem_cons.mp hf with h | h
        · exact absurd h.symm hgf
        · exact ih _ h

theorem enrichFields_id (package_info : Record) (fs : List String) (r : Record)
    (h : ∀ f ∈ fs, ∀ v, lookupField package_info f = some v →
      lookupField r f = some v) :
    enrichFields package_info fs r = r := by
  induction fs with
  | nil => rfl
  | cons g rest ih =>
    cases hg : lookupField package_info g with
    | none =>
      simp only [enrichFields, hg]
      exact ih (fun f hf v hv => h f (List.mem_cons_of_mem g hf) v hv)
    | some w =>
      have hr : lookupField r g = some w := h g (List.mem_cons_self g rest) w hg
      simp only [enrichFields, hg, setField_of_lookup_eq r g w hr]
      exact ih (fun f hf v hv => h f (List.mem_cons_of_mem g hf) v hv)

-- =====================  compare_metadata lemmas  =====================

theorem compareLoop_nil_info (registry_package : Record) (fs : List String) :
    compareLoop registry_package [] fs = none := by
  induction fs with
  | nil => rfl
  | cons f rest ih => simp [compareLoop, lookupField, ih]

theorem compareLoop_eq_find (registry_package package_info : Record)
    (fs : List String) :
    compareLoop registry_package package_info fs =
      fs.find? (fieldDiffers registry_package package_info) := by
  induction fs with
  | nil => rfl
  | cons f rest ih =>
    cases h1 : lookupField package_info f with
    | none => simp [compareLoop, h1, List.find?, fieldDiffers, ih]
    | some v =>
      cases h2 : lookupField registry_package f with
      | none => simp [compareLoop, h1, h2, List.find?, fieldDiffers, ih]
      | some rv =>
        by_cases h3 : rv = v
        · simp [compareLoop, h1, h2, h3, List.find?, fieldDiffers, ih]
        · simp [compareLoop, h1, h2, h3, List.find?, fieldDiffers]

theorem fieldDiffers_eq_false_iff (registry_package package_info : Record)
    (f : String) :
    fieldDiffers registry_package package_info f = false ↔
      ∀ v rv, lookupField package_info f = some v →
        lookupField registry_package f = some rv → rv = v := by
  unfold fieldDiffers
  cases h1 : lookupField package_info f with
  | none => simp [h1]
  | some v =>
    cases h2 : lookupField registry_package f with
    | none => simp [h2]
    | some rv => simp

-- =====================  Claim C8  =====================

/-- C8: enrichment is idempotent — applying the field-copy step of
update_registry.py twice with the same descriptor package section
yields the same record as applying it once. -/
theorem C8_enrich_idempotent (package_info new_package : Record) :
    enrich package_info (enrich package_info new_package) =
      enrich package_info new_package := by
  unfold enrich
  exact enrichFields_id package_info FIELDS_TO_COPY
    (enrichFields package_info FIELDS_TO_COPY new_package)
    (fun f hf v hv =>
      enrichFields_lookup_mem package_info FIELDS_TO_COPY new_package f v hf hv)

/-- C8 witness: the idempotence theorem applied to a concrete minimal
record and a concrete descriptor section. -/
theorem C8_enrich_idempotent_witness :
    enrich [("name", JValue.str "pkg"), ("entry", JValue.str "main.sop")]
        (enrich [("name", JValue.str "pkg"), ("entry", JValue.str "main.sop")]
          [("repository", JValue.str "https://repo")]) =
      enrich [("name", JValue.str "pkg"), ("entry", JValue.str "main.sop")]
        [("repository", JValue.str "https://repo")] :=
  C8_enrich_idempotent
    [("name", JValue.str "pkg"), ("entry", JValue.str "main.sop")]
    [("repository", JValue.str "https://repo")]

-- =====================  Claim C3  =====================

/-- C3 counterexample: a descriptor whose package section is present
but empty makes compare_metadata return True (Match), not the claimed
no-descriptor Mismatch — the guard `not sop_data or "package" not in
sop_data` does not fire for `{"package": {}}`, and the field loop then
skips every field. -/
theorem C3_empty_section_counterexample :
    compare_metadata [("name", JValue.str "a")] (SopData.mk (some []) false) = true := by
  rfl

/-- C3 amended: if the descriptor's package section is absent (in
particular after a failed fetch, which yields the empty dict), field
reconciliation reports the no-descriptor Mismatch regardless of the
registry record's contents; but a present-and-empty package section
yields Match, since no field is compared. -/
theorem C3_no_section_mismatch (registry_package : Record) :
    (∀ sop_data : SopData, sop_data.package = none →
       compare_metadata registry_package sop_data = false) ∧
    (∀ hk : Bool,
       compare_metadata registry_package (SopData.mk (some []) hk) = true) := by
  constructor
  · intro sop_data h
    simp [compare_metadata, h]
  · intro hk
    simp [compare_metadata, SopData.isEmpty, compareLoop_nil_info]

/-- C3 amended witness: the no-descriptor branch at a concrete record
and the empty descriptor value produced by a failed fetch. -/
theorem C3_no_section_mismatch_witness :
    compare_metadata [("name", JValue.str "a")] (SopData.mk none false) = false :=
  (C3_no_section_mismatch [("name", JValue.str "a")]).1 (SopData.mk none false) rfl

-- =====================  Claim C5  =====================

/-- C5: field reconciliation (with a present package section) returns
Match exactly when every field of FIELDS_TO_COMPARE that is present in
both the registry record and the descriptor's package section has
strictly equal values — so a field absent from the descriptor section
never causes a mismatch — and the failing field returned (and printed)
by the loop is the first differing field in list order, the loop
short-circuiting there. -/
theorem C5_reconcile_match_iff_first (registry_package package_info : Record)
    (hk : Bool) :
    (compare_metadata registry_package (SopData.mk (some package_info) hk) = true ↔
      ∀ f ∈ FIELDS_TO_COMPARE, ∀ v rv, lookupField package_info f = some v →
        lookupField registry_package f = some rv → rv = v) ∧
    compareLoop registry_package package_info FIELDS_TO_COMPARE =
      FIELDS_TO_COMPARE.find? (fieldDiffers registry_package package_info) := by
  refine ⟨?_, compareLoop_eq_find registry_package package_info FIELDS_TO_COMPARE⟩
  unfold compare_metadata
  simp only [SopData.isEmpty, Option.isNone_some, Bool.false_and, Bool.or_self,
    Option.getD_some, compareLoop_eq_find]
  rw [if_neg Bool.false_ne_true]
  simp only [Option.isNone_iff_eq_none, List.find?_eq_none]
  constructor
  · intro h f hf v rv h1 h2
    have := h f hf
    rw [Bool.not_eq_true] at this
    exact (fieldDiffers_eq_false_iff registry_package package_info f).mp this v rv h1 h2
  · intro h f hf
    rw [Bool.not_eq_true]
    exact (fieldDiffers_eq_false_iff registry_package package_info f).mpr
      (fun v rv h1 h2 => h f hf v rv h1 h2)

/-- C5 witness: the reconciliation characterization applied to a
concrete registry record and descriptor section differing in both
"version" (earlier in the list) and "author". -/
theorem C5_reconcile_match_iff_first_witness :
    compareLoop
        [("version", JValue.str "1"), ("author", JValue.str "x")]
        [("version", JValue.str "2"), ("author", JValue.str "y")]
        FIELDS_TO_COMPARE =
      FIELDS_TO_COMPARE.find?
        (fieldDiffers
          [("version", JValue.str "1"), ("author", JValue.str "x")]
          [("version", JValue.str "2"), ("author", JValue.str "y")]) :=
  (C5_reconcile_match_iff_first
    [("version", JValue.str "1"), ("author", JValue.str "x")]
    [("version", JValue.str "2"), ("author", JValue.str "y")] false).2

-- =====================  sweep lemmas  =====================

/-- Whenever the repository URL is truthy, the record produced by one
sweep iteration carries the freshly computed verdict in its "valid"
field (either the branch wrote it, or the unchanged branch required the
stored value to equal it already). -/
theorem sweepPackage_valid_lookup (fetch : JValue → SopData)
    (probe : JValue → JValue → Bool) (package : Record)
    (h : jTruthy (lookupFieldD package "repository" (JValue.str "")) = true) :
    lookupField (sweepPackage fetch probe package).1 "valid" =
      some (JValue.bool (computeVerdict fetch probe package
        (lookupFieldD package "repository" (JValue.str "")))) := by
  simp only [sweepPackage]
  rw [h, if_neg (fun hc => Bool.false_ne_true hc.symm)]
  split_ifs with h1 h2
  · exact lookupField_setField_self package "valid" _
  · exact lookupField_setField_self package "valid" _
  · push_neg at h1
    cases h3 : lookupField package "valid" with
    | none =>
      rw [h3] at h2
      simp at h2
    | some x =>
      have hx : lookupFieldD package "valid" (JValue.bool true) = x := by
        simp [lookupFieldD, h3]
      rw [hx] at h1
      rw [h1]

/-- With a falsy (empty or absent) repository URL, the sweep iteration
writes valid := False and unconditionally reports a change. -/
theorem sweepPackage_falsy_repo (fetch : JValue → SopData)
    (probe : JValue → JValue → Bool) (package : Record)
    (h : jTruthy (lookupFieldD package "repository" (JValue.str "")) = false) :
    sweepPackage fetch probe package =
      (setField package "valid" (JValue.bool false), true) := by
  simp only [sweepPackage]
  rw [h, if_pos rfl]

-- =====================  Claim C2  =====================

/-- C2: the verdict written by a sweep iteration (for a record with a
truthy repository URL, so that the network path is taken) is True
exactly when the fetched descriptor is non-empty, the declared entry
path is reachable and field reconciliation reports Match; and making
any single one of the three conjuncts false forces the written verdict
to False. -/
theorem C2_verdict_conjunctive (fetch : JValue → SopData)
    (probe : JValue → JValue → Bool) (package : Record)
    (h : jTruthy (lookupFieldD package "repository" (JValue.str "")) = true) :
    (lookupField (sweepPackage fetch probe package).1 "valid" =
        some (JValue.bool true) ↔
      ((fetch (lookupFieldD package "repository" (JValue.str ""))).isEmpty = false ∧
       entryExists probe (lookupFieldD package "repository" (JValue.str ""))
         (fetch (lookupFieldD package "repository" (JValue.str ""))) = true ∧
       compare_metadata package
         (fetch (lookupFieldD package "repository" (JValue.str ""))) = true)) ∧
    ((fetch (lookupFieldD package "repository" (JValue.str ""))).isEmpty = true →
       lookupField (sweepPackage fetch probe package).1 "valid" =
         some (JValue.bool false)) ∧
    (entryExists probe (lookupFieldD package "repository" (JValue.str ""))
       (fetch (lookupFieldD package "repository" (JValue.str ""))) = false →
       lookupField (sweepPackage fetch probe package).1 "valid" =
         some (JValue.bool false)) ∧
    (compare_metadata package
       (fetch (lookupFieldD package "repository" (JValue.str ""))) = false →
       lookupField (sweepPackage fetch probe package).1 "valid" =
         some (JValue.bool false)) := by
  rw [sweepPackage_valid_lookup fetch probe package h]
  unfold computeVerdict
  simp only [Option.some_inj, JValue.bool.injEq]
  refine ⟨?_, ?_, ?_, ?_⟩
  · simp [Bool.and_eq_true, Bool.not_eq_true', and_assoc]
  · intro he
    simp [he]
  · intro he
    simp [he]
  · intro he
    simp [he]

/-- C2 witness: the conjunctive-verdict theorem applied to a concrete
record whose descriptor fetch succeeds, whose entry probe succeeds and
whose metadata matches. -/
theorem C2_verdict_conjunctive_witness :
    (lookupField
        (sweepPackage (fun _ => SopData.mk (some [("entry", JValue.str "m.sop")]) false)
          (fun _ _ => true) [("repository", JValue.str "https://r")]).1 "valid" =
        some (JValue.bool true) ↔
      ((SopData.mk (some [("entry", JValue.str "m.sop")]) false).isEmpty = false ∧
       entryExists (fun _ _ => true) (JValue.str "https://r")
         (SopData.mk (some [("entry", JValue.str "m.sop")]) false) = true ∧
       compare_metadata [("repository", JValue.str "https://r")]
         (SopData.mk (some [("entry", JValue.str "m.sop")]) false) = true)) :=
  (C2_verdict_conjunctive (fun _ => SopData.mk (some [("entry", JValue.str "m.sop")]) false)
    (fun _ _ => true) [("repository", JValue.str "https://r")] (by decide)).1

-- =====================  Claim C4  =====================

/-- C4 counterexample: a registry holding one record with no
repository and `valid` already False.  The claimed change rule (record
changed only when `valid` is absent or differs from the computed
verdict, which is False here) says nothing changes and nothing is
committed, but the empty-repository branch of daily_check.py sets
`changes_made = True` unconditionally, so the document is persisted and
committed. -/
theorem C4_commit_counterexample :
    (daily_check_main (fun _ => SopData.mk none false) (fun _ _ => false)
        (RegistryDoc.mk (some [[("valid", JValue.bool false)]]) [])).2 = true := by
  rfl

/-- C4 amended: the document is persisted and committed exactly once at
the end of the sweep if and only if at least one record was marked
changed, but a record is marked changed when its repository URL is
falsy (empty or absent) — unconditionally, even if `valid` is already
False — or otherwise when it has no `valid` field or its stored value
differs from the freshly computed verdict. -/
theorem C4_change_and_commit_rule (fetch : JValue → SopData)
    (probe : JValue → JValue → Bool) (doc : RegistryDoc) :
    ((daily_check_main fetch probe doc).2 = true ↔
      ∃ p ∈ doc.packages.getD [], (sweepPackage fetch probe p).2 = true) ∧
    ∀ package : Record,
      ((sweepPackage fetch probe package).2 = true ↔
        (jTruthy (lookupFieldD package "repository" (JValue.str "")) = false ∨
         lookupField package "valid" = none ∨
         lookupFieldD package "valid" (JValue.bool true) ≠
           JValue.bool (computeVerdict fetch probe package
             (lookupFieldD package "repository" (JValue.str ""))))) := by
  constructor
  · by_cases hl : (doc.packages.getD []) = []
    · simp [daily_check_main, runSweep, hl]
    · have hl' : (doc.packages.getD []).isEmpty = false := by
        simp [List.isEmpty_iff, hl]
      simp only [daily_check_main, runSweep]
      rw [hl', if_neg Bool.false_ne_true]
      by_cases hc :
          (doc.packages.getD []).any (fun p => (sweepPackage fetch probe p).2) = true
      · rw [if_pos hc]
        simpa [List.any_eq_true] using hc
      · rw [if_neg hc]
        simp only [List.any_eq_true] at hc
        simpa using hc
  · intro package
    cases hr : jTruthy (lookupFieldD package "repository" (JValue.str "")) with
    | false =>
      rw [sweepPackage_falsy_repo fetch probe package hr]
      simp
    | true =>
      simp only [sweepPackage]
      rw [hr, if_neg (fun hc => Bool.false_ne_true hc.symm)]
      split_ifs with h1 h2
      · simp [h1]
      · simp [Option.isNone_iff_eq_none.mp h2]
      · push_neg at h1
        have h2' : lookupField package "valid" ≠ none := fun hn => h2 (by rw [hn]; rfl)
        simp [h1, h2']

-- =====================  Claim C7  =====================

/-- C7: the sweep is resilient — each record's result depends only on
its own iteration (the sweep output at every index j is the per-record
update of the input record at j, so no package can prevent evaluation
of later ones), and a record with a truthy repository URL whose fetch
fails (the Descriptor Source answering the empty dict, as
fetch_sop_toml does on any fetch or parse error) ends the iteration
with verdict False written to its `valid` field. -/
theorem C7_sweep_resilient (fetch : JValue → SopData)
    (probe : JValue → JValue → Bool) (pkgs : List Record) (i : Nat)
    (hi : i < pkgs.length)
    (hrepo : jTruthy (lookupFieldD pkgs[i] "repository" (JValue.str "")) = true)
    (hfail : fetch (lookupFieldD pkgs[i] "repository" (JValue.str "")) =
      SopData.mk none false) :
    ((runSweep fetch probe pkgs).1[i]?.bind
        (fun r => lookupField r "valid") = some (JValue.bool false)) ∧
    ∀ j : Nat, (runSweep fetch probe pkgs).1[j]? =
      (pkgs[j]?).map (fun p => (sweepPackage fetch probe p).1) := by
  have hmap : ∀ j : Nat, (runSweep fetch probe pkgs).1[j]? =
      (pkgs[j]?).map (fun p => (sweepPackage fetch probe p).1) := by
    intro j
    simp [runSweep]
  refine ⟨?_, hmap⟩
  rw [hmap i, List.getElem?_eq_getElem hi]
  simp only [Option.map_some', Option.some_bind]
  rw [sweepPackage_valid_lookup fetch probe _ hrepo]
  unfold computeVerdict
  rw [hfail]
  rfl

/-- C7 witness: a one-package registry whose fetch fails; the sweep
still writes verdict False for it. -/
theorem C7_sweep_resilient_witness :
    ((runSweep (fun _ => SopData.mk none false) (fun _ _ => false)
        [[("repository", JValue.str "https://u")]]).1[0]?.bind
        (fun r => lookupField r "valid") = some (JValue.bool false)) :=
  (C7_sweep_resilient (fun _ => SopData.mk none false) (fun _ _ => false)
    [[("repository", JValue.str "https://u")]] 0 (by decide) (by decide) rfl).1

-- =====================  Claim C9  =====================

/-- Fields whose copy-source is absent (absent from the copy list, or
not declared by the descriptor's package section) are untouched by the
copy loop. -/
theorem enrichFields_frame (package_info : Record) (fs : List String)
    (r : Record) (f : String)
    (h : f ∈ fs → lookupField package_info f = none) :
    lookupField (enrichFields package_info fs r) f = lookupField r f := by
  induction fs generalizing r with
  | nil => rfl
  | cons g rest ih =>
    cases hg : lookupField package_info g with
    | none =>
      simp only [enrichFields, hg]
      exact ih r (fun hf => h (List.mem_cons_of_mem g hf))
    | some w =>
      simp only [enrichFields, hg]
      have hgf : g ≠ f := by
        intro hh
        subst hh
        rw [h (List.mem_cons_self g rest)] at hg
        cases hg
      rw [ih (setField r g w) (fun hf => h (List.mem_cons_of_mem g hf)),
        lookupField_setField_ne r f g w hgf]

/-- C9: enrichment only touches the last element of the packages list —
whenever update_registry.py succeeds, the resulting document keeps every
top-level field other than packages, keeps the number of records, keeps
every record at an index before the last, and on the last record (now
its enrichment) changes at most the fields of FIELDS_TO_COPY that the
descriptor's package section declares. -/
theorem C9_enrich_frame (fetch : JValue → Option SopData)
    (doc doc' : RegistryDoc) (pkgs : List Record) (last : Record)
    (repo_url : JValue) (sop_data : SopData)
    (hp : doc.packages = some pkgs)
    (hlast : pkgs.getLast? = some last)
    (hrepo : lookupField last "repository" = some repo_url)
    (hfetch : fetch repo_url = some sop_data)
    (hrun : update_registry_main fetch doc = some doc') :
    doc'.extra = doc.extra ∧
    doc'.packages =
      some (pkgs.dropLast ++ [enrich (sop_data.package.getD []) last]) ∧
    (pkgs.dropLast ++ [enrich (sop_data.package.getD []) last]).length =
      pkgs.length ∧
    (∀ i : Nat, i + 1 < pkgs.length →
      (pkgs.dropLast ++ [enrich (sop_data.package.getD []) last])[i]? =
        pkgs[i]?) ∧
    (∀ f : String,
      (f ∈ FIELDS_TO_COPY → lookupField (sop_data.package.getD []) f = none) →
      lookupField (enrich (sop_data.package.getD []) last) f =
        lookupField last f) := by
  have hne : pkgs ≠ [] := by
    intro hnil
    rw [hnil] at hlast
    cases hlast
  have hdoc' : doc' = RegistryDoc.mk
      (some (pkgs.dropLast ++ [enrich (sop_data.package.getD []) last]))
      doc.extra := by
    unfold update_registry_main at hrun
    rw [hp] at hrun
    simp only [Option.getD_some] at hrun
    rw [hlast] at hrun
    simp only at hrun
    rw [hrepo] at hrun
    simp only at hrun
    rw [hfetch] at hrun
    simp only [Option.some_inj] at hrun
    exact hrun.symm
  subst hdoc'
  refine ⟨rfl, rfl, ?_, ?_, ?_⟩
  · rw [List.length_append, List.length_dropLast, List.length_singleton]
    have : 1 ≤ pkgs.length := List.length_pos.mpr hne
    omega
  · intro i hi
    rw [List.getElem?_append_left (by
      rw [List.length_dropLast]; omega)]
    rw [List.getElem?_dropLast, if_pos (by omega)]
  · intro f hf
    exact enrichFields_frame (sop_data.package.getD []) FIELDS_TO_COPY last f hf

/-- C9 witness: the frame theorem applied to a concrete two-record
registry whose descriptor declares only "name": the first record, the
document-level extra field and the last record's "repository" are kept,
and only "name" is written onto the last record. -/
theorem C9_enrich_frame_witness :
    (RegistryDoc.mk
        (some [[("name", JValue.str "old")],
               [("repository", JValue.str "https://r"),
                ("name", JValue.str "new")]])
        [("schema", JValue.str "v1")]).extra =
      (RegistryDoc.mk
        (some [[("name", JValue.str "old")],
               [("repository", JValue.str "https://r")]])
        [("schema", JValue.str "v1")]).extra :=
  (C9_enrich_frame
    (fun _ => some (SopData.mk (some [("name", JValue.str "new")]) false))
    (RegistryDoc.mk
      (some [[("name", JValue.str "old")],
             [("repository", JValue.str "https://r")]])
      [("schema", JValue.str "v1")])
    (RegistryDoc.mk
      (some [[("name", JValue.str "old")],
             [("repository", JValue.str "https://r"),
              ("name", JValue.str "new")]])
      [("schema", JValue.str "v1")])
    [[("name", JValue.str "old")], [("repository", JValue.str "https://r")]]
    [("repository", JValue.str "https://r")]
    (JValue.str "https://r")
    (SopData.mk (some [("name", JValue.str "new")]) false)
    rfl rfl rfl rfl (by decide)).1


-- =====================  Claim C1  =====================

theorem firstModified_eq_none_iff (bp pp : List Record) :
    firstModified bp pp = none ↔
      ∀ i : Nat, i < bp.length →
        recordEqv (bp.getD i []) (pp.getD i []) = true := by
  unfold firstModified
  rw [List.find?_eq_none]
  constructor
  · intro h i hi
    have := h i (List.mem_range.mpr hi)
    simpa using this
  · intro h i hi
    simpa using h i (List.mem_range.mp hi)

theorem verifyPackages_accept_iff (bp pp : List Record) :
    verifyPackages bp pp = AppendResult.accept ↔
      (pp.length = bp.length + 1 ∧
       (∀ i : Nat, i < bp.length →
         recordEqv (bp.getD i []) (pp.getD i []) = true) ∧
       (∀ kv ∈ pp.getLast?.getD [], kv.1 = "repository") ∧
       ∃ s : String,
         lookupFieldD (pp.getLast?.getD []) "repository" (JValue.str "") =
           JValue.str s ∧ pyStrip s ≠ "") := by
  by_cases hlen : pp.length = bp.length + 1
  case neg =>
    have hL : verifyPackages bp pp = AppendResult.wrongCount := by
      unfold verifyPackages
      rw [if_pos hlen]
    rw [hL]
    simp [hlen]
  case pos =>
  cases hfm : firstModified bp pp with
  | some i =>
    have hL : verifyPackages bp pp = AppendResult.modifiedIndex i := by
      unfold verifyPackages
      rw [if_neg (not_not_intro hlen), hfm, if_pos (by simp)]
      rfl
    rw [hL]
    constructor
    · intro hcon
      exact AppendResult.noConfusion hcon
    · rintro ⟨-, hall, -⟩
      have hfm' : (List.range bp.length).find?
          (fun j => !recordEqv (bp.getD j []) (pp.getD j [])) = some i := hfm
      have h1 := List.find?_some hfm'
      have h2 : i < bp.length := List.mem_range.mp (List.mem_of_find?_eq_some hfm')
      have h3 := hall i h2
      simp only [List.getD_eq_getElem?_getD] at h3
      simp [h3] at h1
  | none =>
    by_cases hany :
        ((pp.getLast?.getD []).any (fun kv => decide (kv.1 ≠ "repository"))) = true
    case pos =>
      have hL : verifyPackages bp pp = AppendResult.extraFields := by
        unfold verifyPackages
        rw [if_neg (not_not_intro hlen), hfm, if_neg (by simp), if_pos hany]
      rw [hL]
      constructor
      · intro hcon
        exact AppendResult.noConfusion hcon
      · rintro ⟨-, -, hfields, -⟩
        rcases List.any_eq_true.mp hany with ⟨kv, hkv, hne⟩
        simp at hne
        exact (hne (hfields kv hkv)).elim
    case neg =>
      cases hlook :
          lookupFieldD (pp.getLast?.getD []) "repository" (JValue.str "") with
      | str s =>
        by_cases htrim : pyStrip s = ""
        case pos =>
          have hL : verifyPackages bp pp = AppendResult.emptyRepository := by
            unfold verifyPackages
            rw [if_neg (not_not_intro hlen), hfm, if_neg (by simp), if_neg hany,
              hlook]
            show (if pyStrip s = "" then AppendResult.emptyRepository
              else AppendResult.accept) = AppendResult.emptyRepository
            rw [if_pos htrim]
          rw [hL]
          constructor
          · intro hcon
            exact AppendResult.noConfusion hcon
          · rintro ⟨-, -, -, s', hlook', htrim'⟩
            injection hlook' with e
            exact (htrim' (e ▸ htrim)).elim
        case neg =>
          have hL : verifyPackages bp pp = AppendResult.accept := by
            unfold verifyPackages
            rw [if_neg (not_not_intro hlen), hfm, if_neg (by simp), if_neg hany,
              hlook]
            show (if pyStrip s = "" then AppendResult.emptyRepository
              else AppendResult.accept) = AppendResult.accept
            rw [if_neg htrim]
          rw [hL]
          constructor
          · intro hacc
            refine ⟨hlen, (firstModified_eq_none_iff bp pp).mp hfm, ?_, s, rfl, htrim⟩
            intro kv hkv
            have hany' : ((pp.getLast?.getD []).any
                (fun kv => decide (kv.1 ≠ "repository"))) = false := by
              cases hx : ((pp.getLast?.getD []).any
                  (fun kv => decide (kv.1 ≠ "repository"))) with
              | false => rfl
              | true => exact absurd hx hany
            have := List.any_eq_false.mp hany' kv hkv
            simpa using this
          · intro hrhs
            rfl
      | null =>
        have hL : verifyPackages bp pp = AppendResult.typeError := by
          unfold verifyPackages
          rw [if_neg (not_not_intro hlen), hfm, if_neg (by simp), if_neg hany, hlook]
        rw [hL]
        constructor
        · intro hcon
          exact AppendResult.noConfusion hcon
        · rintro ⟨-, -, -, s', hlook', -⟩
          cases hlook'
      | bool b =>
        have hL : verifyPackages bp pp = AppendResult.typeError := by
          unfold verifyPackages
          rw [if_neg (not_not_intro hlen), hfm, if_neg (by simp), if_neg hany, hlook]
        rw [hL]
        constructor
        · intro hcon
          exact AppendResult.noConfusion hcon
        · rintro ⟨-, -, -, s', hlook', -⟩
          cases hlook'
      | num n =>
        have hL : verifyPackages bp pp = AppendResult.typeError := by
          unfold verifyPackages
          rw [if_neg (not_not_intro hlen), hfm, if_neg (by simp), if_neg hany, hlook]
        rw [hL]
        constructor
        · intro hcon
          exact AppendResult.noConfusion hcon
        · rintro ⟨-, -, -, s', hlook', -⟩
          cases hlook'
      | strList xs =>
        have hL : verifyPackages bp pp = AppendResult.typeError := by
          unfold verifyPackages
          rw [if_neg (not_not_intro hlen), hfm, if_neg (by simp), if_neg hany, hlook]
        rw [hL]
        constructor
        · intro hcon
          exact AppendResult.noConfusion hcon
        · rintro ⟨-, -, -, s', hlook', -⟩
          cases hlook'

/-- C1: the append-diff verifier accepts exactly when both documents
have a packages field, the proposed list is one record longer, every
shared index holds structurally equal records (Python dict equality),
the appended record's field set is a subset of the singleton
repository, and its repository value is a string that is non-empty
after stripping whitespace.  Every rejection exits non-zero naming the
violated rule (the AppendResult constructors; the `typeError` case for
a truthy non-string repository value exits non-zero through an
uncaught AttributeError). -/
theorem C1_append_accept_iff (base_data pr_data : RegistryDoc) :
    verify_append base_data pr_data = AppendResult.accept ↔
      ∃ bp pp, base_data.packages = some bp ∧ pr_data.packages = some pp ∧
        pp.length = bp.length + 1 ∧
        (∀ i : Nat, i < bp.length →
          recordEqv (bp.getD i []) (pp.getD i []) = true) ∧
        (∀ kv ∈ pp.getLast?.getD [], kv.1 = "repository") ∧
        ∃ s : String,
          lookupFieldD (pp.getLast?.getD []) "repository" (JValue.str "") =
            JValue.str s ∧ pyStrip s ≠ "" := by
  cases hb : base_data.packages with
  | none =>
    constructor
    · intro h
      unfold verify_append at h
      rw [hb] at h
      exact AppendResult.noConfusion h
    · rintro ⟨bp, pp, hbp, -⟩
      cases hbp
  | some bp =>
    cases hp : pr_data.packages with
    | none =>
      constructor
      · intro h
        unfold verify_append at h
        rw [hb, hp] at h
        exact AppendResult.noConfusion h
      · rintro ⟨bp', pp', -, hpp', -⟩
        cases hpp'
    | some pp =>
      have hL : verify_append base_data pr_data = verifyPackages bp pp := by
        unfold verify_append
        rw [hb, hp]
      rw [hL, verifyPackages_accept_iff]
      constructor
      · rintro ⟨hlen, hall, hfields, hs⟩
        exact ⟨bp, pp, rfl, rfl, hlen, hall, hfields, hs⟩
      · rintro ⟨bp', pp', hbp', hpp', hlen, hall, hfields, hs⟩
        injection hbp' with e1
        injection hpp' with e2
        subst e1
        subst e2
        exact ⟨hlen, hall, hfields, hs⟩

/-- C1 witness: the characterization applied to a concrete accepted
pair (one existing record kept verbatim, one appended record holding
only a non-blank repository). -/
theorem C1_append_accept_iff_witness :
    verify_append
        (RegistryDoc.mk (some [[("repository", JValue.str "https://a")]]) [])
        (RegistryDoc.mk
          (some [[("repository", JValue.str "https://a")],
                 [("repository", JValue.str "https://b")]]) []) =
      AppendResult.accept :=
  (C1_append_accept_iff
    (RegistryDoc.mk (some [[("repository", JValue.str "https://a")]]) [])
    (RegistryDoc.mk
      (some [[("repository", JValue.str "https://a")],
             [("repository", JValue.str "https://b")]]) [])).mpr
    ⟨[[("repository", JValue.str "https://a")]],
     [[("repository", JValue.str "https://a")],
      [("repository", JValue.str "https://b")]],
     rfl, rfl, rfl,
     fun i hi => by
       have h1 : i = 0 := by
         simp only [List.length_cons, List.length_nil] at hi
         omega
       subst h1
       rfl,
     by decide,
     "https://b", rfl, by decide⟩

-- =====================  Claim C6  =====================

theorem checkRequired_eq_find (package_info : Record) (fs : List String) :
    checkRequired package_info fs =
      fs.find? (fun f => (lookupField package_info f).isNone) := by
  induction fs with
  | nil => rfl
  | cons f rest ih =>
    by_cases h : lookupField package_info f = none
    · simp [checkRequired, h, List.find?, Option.isNone_iff_eq_none]
    · have h' : (lookupField package_info f).isNone = false := by
        cases hx : lookupField package_info f with
        | none => exact absurd hx h
        | some v => rfl
      simp [checkRequired, h, List.find?, h', ih]

/-- C6: when the fetched descriptor's package section is missing at
least one required field, the admission validator rejects reporting
exactly the first missing field in the fixed order name, version,
status, license, author, repository, entry (the loop is fail-fast, so
a descriptor missing both license and author reports license only, as
the witness instantiates). -/
theorem C6_first_missing_field (fetch : JValue → Option SopData)
    (probe : JValue → JValue → Bool) (doc : RegistryDoc)
    (new_package : Record) (repo_url : JValue) (sop_data : SopData)
    (hlast : (doc.packages.getD []).getLast? = some new_package)
    (hrepo : lookupField new_package "repository" = some repo_url)
    (hfetch : fetch repo_url = some sop_data)
    (hmiss : ∃ f ∈ REQUIRED_FIELDS,
      lookupField (sop_data.package.getD []) f = none) :
    ∃ f : String,
      REQUIRED_FIELDS.find?
        (fun g => (lookupField (sop_data.package.getD []) g).isNone) = some f ∧
      validate_sop_toml fetch probe doc = AdmissionResult.missingField f := by
  have hfind : (REQUIRED_FIELDS.find?
      (fun g => (lookupField (sop_data.package.getD []) g).isNone)).isSome := by
    rcases hmiss with ⟨f, hf, hnone⟩
    rw [List.find?_isSome]
    exact ⟨f, hf, by simp [hnone]⟩
  rcases Option.isSome_iff_exists.mp hfind with ⟨f, hf⟩
  refine ⟨f, hf, ?_⟩
  simp only [validate_sop_toml, hlast, hrepo, hfetch, checkRequired_eq_find, hf]

/-- C6 witness: a descriptor declaring name, version, status,
repository and entry but missing both license and author is rejected
reporting license only (license being the first missing field in the
required order). -/
theorem C6_first_missing_field_witness :
    ∃ f : String,
      REQUIRED_FIELDS.find?
        (fun g => (lookupField
          ((SopData.mk (some [("name", JValue.str "n"), ("version", JValue.str "1"),
            ("status", JValue.str "s"), ("repository", JValue.str "r"),
            ("entry", JValue.str "e")]) false).package.getD []) g).isNone) = some f ∧
      validate_sop_toml
        (fun _ => some (SopData.mk
          (some [("name", JValue.str "n"), ("version", JValue.str "1"),
            ("status", JValue.str "s"), ("repository", JValue.str "r"),
            ("entry", JValue.str "e")]) false))
        (fun _ _ => true)
        (RegistryDoc.mk (some [[("repository", JValue.str "r")]]) []) =
        AdmissionResult.missingField f :=
  C6_first_missing_field
    (fun _ => some (SopData.mk
      (some [("name", JValue.str "n"), ("version", JValue.str "1"),
        ("status", JValue.str "s"), ("repository", JValue.str "r"),
        ("entry", JValue.str "e")]) false))
    (fun _ _ => true)
    (RegistryDoc.mk (some [[("repository", JValue.str "r")]]) [])
    [("repository", JValue.str "r")]
    (JValue.str "r")
    (SopData.mk
      (some [("name", JValue.str "n"), ("version", JValue.str "1"),
        ("status", JValue.str "s"), ("repository", JValue.str "r"),
        ("entry", JValue.str "e")]) false)
    rfl rfl rfl (by decide)

-- =====================  Claim C10  =====================

/-- C10: the admission validator reads the last record's "repository"
field unconditionally — when the key is present the read never raises,
and the result is never the KeyError crash; when the key is absent the
validator ends in an uncaught KeyError (crash) instead of a clean
diagnostic rejection. -/
theorem C10_repository_keyerror (fetch : JValue → Option SopData)
    (probe : JValue → JValue → Bool) (doc : RegistryDoc) (last : Record)
    (hlast : (doc.packages.getD []).getLast? = some last) :
    ((lookupField last "repository").isSome →
      validate_sop_toml fetch probe doc ≠ AdmissionResult.crashKeyError) ∧
    (lookupField last "repository" = none →
      validate_sop_toml fetch probe doc = AdmissionResult.crashKeyError) := by
  constructor
  · intro hsome
    rcases Option.isSome_iff_exists.mp hsome with ⟨repo_url, hrepo⟩
    intro hcon
    simp only [validate_sop_toml, hlast, hrepo] at hcon
    cases hfetch : fetch repo_url with
    | none => simp [hfetch] at hcon
    | some sop_data =>
      simp only [hfetch] at hcon
      cases hreq : checkRequired (sop_data.package.getD []) REQUIRED_FIELDS with
      | some f => simp [hreq] at hcon
      | none =>
        simp only [hreq] at hcon
        cases hent : lookupField (sop_data.package.getD []) "entry" with
        | some e =>
          simp only [hent] at hcon
          by_cases hp : probe repo_url e = true
          · rw [if_pos hp] at hcon
            cases hcon
          · rw [if_neg hp] at hcon
            cases hcon
        | none => simp [hent] at hcon
  · intro hnone
    simp only [validate_sop_toml, hlast, hnone]

/-- C10 witness: a registry whose last record has no repository key
makes the validator crash with the KeyError, not a clean rejection. -/
theorem C10_repository_keyerror_witness :
    validate_sop_toml (fun _ => none) (fun _ _ => false)
        (RegistryDoc.mk (some [[("name", JValue.str "x")]]) []) =
      AdmissionResult.crashKeyError :=
  (C10_repository_keyerror (fun _ => none) (fun _ _ => false)
    (RegistryDoc.mk (some [[("name", JValue.str "x")]]) [])
    [("name", JValue.str "x")] rfl).2 rfl
